import Mathlib

/-!
Verification of the local-ai-service specification against a shallow
embedding of the service's Python sources.  Each definition below is a
direct translation of a function in
`src/desktop/src/local-ai-service/src/services/`; the theorems at the end
settle the spec's testable properties against these definitions.
-/

namespace CurioAi

/-! ## Tier model (`services/model_manager.py`) -/

/-- The four capability tiers, in the documented order. -/
inductive Tier
  | LOW_END
  | MID_RANGE
  | HIGH_END
  | PREMIUM
deriving DecidableEq, Repr

/-- One entry of the `MODEL_TIERS` table: model ids plus memory threshold. -/
structure TierConfig where
  llm : String
  embedding : String
  nlp : String
  min_ram_gb : ℚ
deriving DecidableEq, Repr

/-- The `MODEL_TIERS` dictionary, verbatim from `model_manager.py`. -/
def MODEL_TIERS : Tier → TierConfig
  | .LOW_END   => ⟨"phi3:mini",   "all-MiniLM-L6-v2",  "en_core_web_sm", 4⟩
  | .MID_RANGE => ⟨"llama3.2:1b", "all-MiniLM-L6-v2",  "en_core_web_sm", 8⟩
  | .HIGH_END  => ⟨"llama3.2:3b", "all-MiniLM-L6-v2",  "en_core_web_sm", 16⟩
  | .PREMIUM   => ⟨"mistral:7b",  "all-mpnet-base-v2", "en_core_web_md", 16⟩

/-- Position of a tier in the four-level ordering
LOW_END < MID_RANGE < HIGH_END < PREMIUM. -/
def Tier.rank : Tier → ℕ
  | .LOW_END => 0
  | .MID_RANGE => 1
  | .HIGH_END => 2
  | .PREMIUM => 3

/-- `ModelManager.get_recommended_tier`: the cascade of `total_ram >=`
comparisons from `model_manager.py` lines 76-83, checked from `PREMIUM`
down to the `LOW_END` default.  `total_ram` is the detected
`total_ram_gb` of the resource snapshot. -/
def get_recommended_tier (total_ram : ℚ) : Tier :=
  if (MODEL_TIERS .PREMIUM).min_ram_gb ≤ total_ram then .PREMIUM
  else if (MODEL_TIERS .HIGH_END).min_ram_gb ≤ total_ram then .HIGH_END
  else if (MODEL_TIERS .MID_RANGE).min_ram_gb ≤ total_ram then .MID_RANGE
  else .LOW_END

/-! ## Device state and encode fallback
(`services/embedding_service_v2.py`, same shape in `services/embedding.py`) -/

/-- The module-global `_device` of `embedding_service_v2.py`: `none` until
`get_device` first resolves it. -/
structure DeviceState where
  _device : Option String
deriving DecidableEq, Repr

/-- `get_device()`: lazily probes CUDA once and caches the choice in the
module-global `_device`.  `cuda_available` models
`torch.cuda.is_available()` and `cuda_usable` models whether the probe
tensor allocation succeeds. -/
def get_device (cuda_available cuda_usable : Bool) (s : DeviceState) :
    String × DeviceState :=
  match s._device with
  | some d => (d, s)
  | none =>
    if cuda_available then
      if cuda_usable then ("cuda", ⟨some "cuda"⟩)
      else ("cpu", ⟨some "cpu"⟩)
    else ("cpu", ⟨some "cpu"⟩)

/-- Python's `needle in haystack` for strings: `needle` occurs as a
contiguous subsequence of `haystack`. -/
def str_contains (haystack needle : String) : Bool :=
  (List.range (haystack.toList.length + 1)).any
    (fun i => needle.toList.isPrefixOf (haystack.toList.drop i))

/-- Python's `str.lower()`, character by character. -/
def str_to_lower (s : String) : String :=
  String.mk (s.toList.map Char.toLower)

/-- The device-error heuristic `'cuda' in str(e).lower() or 'CUDA' in str(e)`
used by both `generate_embedding` variants. -/
def is_cuda_error (e : String) : Bool :=
  str_contains (str_to_lower e) "cuda" || str_contains e "CUDA"

/-- Outcome of one `generate_embedding` encode phase: the call's result,
the module-global device state after the call, and the devices passed to
`model.encode` in order. -/
structure EncodeCallOutcome where
  result : Except String (List ℚ)
  state : DeviceState
  devices_tried : List String
deriving Repr

/-- The encode phase of `generate_embedding` (`embedding_service_v2.py`
lines 88-97; `embedding.py` lines 64-75).  `encode d` is what
`model.encode(text, device=d)` returns for the call's text: a vector, or
the message of the exception it raises.

Faithfulness note: in the source, the handler's `_device = 'cpu'` appears
inside a function with no `global _device` declaration, so Python binds a
fresh local name and the module-global `_device` keeps its old value.  The
returned `state` therefore carries the state produced by `get_device`,
unchanged by the fallback branch. -/
def encode_with_fallback (encode : String → Except String (List ℚ))
    (cuda_available cuda_usable : Bool) (s : DeviceState) : EncodeCallOutcome :=
  let step := get_device cuda_available cuda_usable s
  match encode step.1 with
  | .ok v => ⟨.ok v, step.2, [step.1]⟩
  | .error e =>
    if is_cuda_error e then
      ⟨encode "cpu", step.2, [step.1, "cpu"]⟩
    else
      ⟨.error e, step.2, [step.1]⟩

/-! ## Embedding model cache (`embedding_service_v2.py` lines 51-76)

`get_embedding_model` checks the module dict `_embedding_models`, and on a
miss instantiates a `SentenceTransformer` and stores it.  The function
body contains no `await`, and every caller (`generate_embedding`,
`batch_generate_embeddings`, the routes) reaches it without an intervening
suspension point, so under the service's single event loop each call runs
atomically; N concurrent callers are modelled as N calls in their arrival
order. -/

/-- Module-wide embedding-model cache state: the `_embedding_models` dict
(model name ↦ instance), a count of `SentenceTransformer` instantiations,
and a supply of fresh instance identities. -/
structure EmbCache where
  cache : List (String × ℕ)
  loadCount : ℕ
  nextId : ℕ
deriving DecidableEq, Repr

/-- `get_embedding_model(model_name)`: return the cached instance, or
instantiate, cache and return a new one (load assumed to succeed, as in
the single-flight property's scenario). -/
def get_embedding_model (name : String) (s : EmbCache) : ℕ × EmbCache :=
  match s.cache.lookup name with
  | some h => (h, s)
  | none => (s.nextId, ⟨(name, s.nextId) :: s.cache, s.loadCount + 1, s.nextId + 1⟩)

/-- N callers invoking `get_embedding_model` for the same name, in arrival
order; returns the final cache state and each caller's handle. -/
def runCalls (name : String) : ℕ → EmbCache → EmbCache × List ℕ
  | 0, s => (s, [])
  | n + 1, s =>
    let first := get_embedding_model name s
    let rest := runCalls name n first.2
    (rest.1, first.1 :: rest.2)

/-! ## Embedding responses (`embedding_service_v2.py` lines 99-105, 143-150) -/

/-- `EmbeddingResponse` from `api/schemas.py`: `embedding: List[float]`,
`model: str`, `dimension: int`. -/
structure EmbeddingResponse where
  embedding : List ℚ
  model : String
  dimension : ℕ
deriving DecidableEq, Repr

/-- A loaded `SentenceTransformer`: its name, declared dimensionality
(`get_sentence_embedding_dimension()`), and its per-text encoder.  Per the
collaborator contract, batch encoding returns one vector per input text in
input order, so a batch encode is `texts.map enc`. -/
structure SentenceTransformerModel where
  name : String
  dim : ℕ
  enc : String → List ℚ

/-- Response construction of v2 `generate_embedding` (lines 99-105):
`model` is assigned `get_sentence_embedding_dimension()` — an integer,
coerced to the schema's string field — and `dimension` is
`len(embedding_list)`. -/
def generate_embedding_v2 (m : SentenceTransformerModel) (text : String) :
    EmbeddingResponse :=
  ⟨m.enc text, toString m.dim, (m.enc text).length⟩

/-- `batch_generate_embeddings` (lines 110-156): one batched
`model.encode(texts, ...)` invocation, then one `EmbeddingResponse` per
returned row in order, with `model` set to the model's dimensionality and
`dimension` to `len(embedding)`.  The second component counts the encode
invocations the call performs. -/
def batch_generate_embeddings (m : SentenceTransformerModel)
    (texts : List String) : List EmbeddingResponse × ℕ :=
  let embeddings := texts.map m.enc
  (embeddings.map (fun e => ⟨e, toString m.dim, e.length⟩), 1)

/-! ## Activity classifier (`services/activity_classifier_ml.py`) -/

/-- The `ACTIVITY_TYPES` label list. -/
def ACTIVITY_TYPES : List String :=
  ["coding", "reading", "watching", "gaming", "shopping", "social",
   "learning", "entertainment", "work", "other"]

/-- `should_use_ml_classifier()`: the resolved tier permits the ML path
only for `HIGH_END` and `PREMIUM` (lines 94-98). -/
def should_use_ml_classifier (tier : Tier) : Bool :=
  tier = .HIGH_END || tier = .PREMIUM

/-- The fallback mapping table of `map_to_activity_type` (lines 196-221),
in source order. -/
def activity_mappings : List (String × String) :=
  [("code", "coding"), ("programming", "coding"), ("editor", "coding"),
   ("read", "reading"), ("book", "reading"), ("pdf", "reading"),
   ("video", "watching"), ("youtube", "watching"), ("stream", "watching"),
   ("game", "gaming"), ("play", "gaming"),
   ("shop", "shopping"), ("buy", "shopping"), ("ecommerce", "shopping"),
   ("social", "social"), ("media", "social"),
   ("learn", "learning"), ("study", "learning"), ("tutorial", "learning"),
   ("entertain", "entertainment"), ("movie", "entertainment"),
   ("music", "entertainment"),
   ("work", "work"), ("office", "work")]

/-- `map_to_activity_type(label)`: direct membership, else the first
mapping whose key occurs in the lowercased label, else `'other'`. -/
def map_to_activity_type (label : String) : String :=
  if label ∈ ACTIVITY_TYPES then label
  else
    match activity_mappings.find? (fun kv => str_contains (str_to_lower label) kv.1) with
    | some kv => kv.2
    | none => "other"

/-- The classifier's result dictionary: `activity_type`, `confidence`,
`metadata` (key/value pairs), `reason`. -/
structure ClassifyResult where
  activity_type : String
  confidence : ℚ
  metadata : List (String × String)
  reason : String
deriving DecidableEq, Repr

/-- What the zero-shot pipeline returns: labels paired with scores, best
first (`result['labels']`, `result['scores']`), or `none` when the result
lacks that shape. -/
structure ZeroShotOutput where
  predictions : List (String × ℚ)
deriving Repr

/-- `classify_activity_ml` (lines 100-187).  `load_result` models
`load_classifier_model()` for a permitted tier: `none` when loading
failed, otherwise the pipeline as a function from the input text and
candidate labels to its output.  The second component counts
model-load attempts performed by the call. -/
def classify_activity_ml (tier : Tier)
    (load_result : Option (String → List String → Option ZeroShotOutput))
    (app_name window_title : String)
    (url content_snippet : Option String) : ClassifyResult × ℕ :=
  if !should_use_ml_classifier tier then
    (⟨"other", 1/2, [],
      "Tier does not support ML classification, use rule-based"⟩, 0)
  else
    match load_result with
    | none =>
      (⟨"other", 1/2, [], "ML model not loaded, use rule-based classifier"⟩, 1)
    | some classifier =>
      let input_text :=
        app_name ++ " " ++ window_title
          ++ (match url with | some u => " " ++ u | none => "")
          ++ (match content_snippet with
              | some c => " " ++ String.mk (c.toList.take 200)
              | none => "")
      match classifier input_text ACTIVITY_TYPES with
      | some out =>
        match out.predictions with
        | (top_label, top_score) :: _ =>
          (⟨map_to_activity_type top_label, top_score,
            [("model", "distilbert-base-uncased"),
             ("method", "zero-shot-classification")],
            "ML classification: " ++ top_label⟩, 1)
        | [] =>
          (⟨"other", 1/2, [], "ML classification returned unexpected format"⟩, 1)
      | none =>
        (⟨"other", 1/2, [], "ML classification returned unexpected format"⟩, 1)

/-! ## Daily-summary insights (`services/activity_insights.py` lines 50-149) -/

/-- The slice of `activities_data` the daily-summary fallback reads. -/
structure ActivitiesData where
  date : String
  activities : List String
  time_spent : List (String × ℤ)
  concepts : List String
deriving DecidableEq, Repr

/-- The `DailySummary` schema of `activity_insights.py`. -/
structure DailySummary where
  summary : String
  activities : List String
  time_spent : List (String × ℤ)
  concepts_learned : List String
  insights : List String
deriving DecidableEq, Repr

/-- The JSON-candidate extraction of lines 122-127: slice from the first
`'\x7b'` through the last `'\x7d'` that follows it; `none` when either
bound is missing. -/
def extract_json_candidate (s : List Char) : Option (List Char) :=
  match s.findIdx? (fun c => c = '\x7b') with
  | none => none
  | some i =>
    let t := s.drop i
    match t.reverse.findIdx? (fun c => c = '\x7d') with
    | none => none
    | some j => some (t.take (t.length - j))

/-- The fallback dictionary of lines 134-140: `summary` and the single
`insights` entry are `str(response)` — the retrieval-stage answer — and
the other fields echo the request's `activities_data`. -/
def daily_summary_fallback (data : ActivitiesData) (rag_response : String) :
    DailySummary :=
  ⟨rag_response, data.activities, data.time_spent, data.concepts,
   [rag_response]⟩

/-- The parse-and-fallback tail of `generate_daily_summary_ai`
(lines 119-140).  `rag_response` is `str(response)` from the query engine,
`llm_response` the raw LLM string, and `json_parse` models
`json.loads` + `DailySummary(**parsed)` on the extracted candidate
(`none` when either raises, which the source catches). -/
def generate_daily_summary (data : ActivitiesData)
    (rag_response llm_response : String)
    (json_parse : String → Option DailySummary) : DailySummary :=
  match extract_json_candidate llm_response.toList with
  | some cand =>
    match json_parse (String.mk cand) with
    | some parsed => parsed
    | none => daily_summary_fallback data rag_response
  | none => daily_summary_fallback data rag_response

/-! ## Entity extraction (`services/entity_extractor_enhanced.py`) -/

/-- The `Concept` schema of `api/schemas.py` (its `start`/`end` character
offsets are `start_char`/`end_char` here; `end` is a Lean keyword). -/
structure Concept where
  text : String
  label : String
  confidence : ℚ
  start_char : ℕ
  end_char : ℕ
deriving DecidableEq, Repr

/-- The `ExtractConceptsResponse` schema of `api/schemas.py`. -/
structure ExtractConceptsResponse where
  concepts : List Concept
  keywords : List String
  topics : List String
deriving DecidableEq, Repr

/-- `map_spacy_label` (lines 144-154). -/
def map_spacy_label (l : String) : String :=
  if l = "PERSON" then "PERSON"
  else if l = "ORG" then "ORGANIZATION"
  else if l = "GPE" then "LOCATION"
  else if l = "PRODUCT" then "TECH"
  else if l = "MONEY" then "OTHER"
  else if l = "DATE" then "OTHER"
  else "OTHER"

/-- `map_bert_label` (lines 156-164). -/
def map_bert_label (l : String) : String :=
  if l = "PER" then "PERSON"
  else if l = "ORG" then "ORGANIZATION"
  else if l = "LOC" then "LOCATION"
  else if l = "MISC" then "OTHER"
  else "OTHER"

/-- A spaCy entity (`doc.ents` element): surface text, raw label, offsets. -/
structure SpacyEnt where
  text : String
  label : String
  start_char : ℕ
  end_char : ℕ
deriving DecidableEq, Repr

/-- A BERT NER aggregation-strategy result row. -/
structure BertEnt where
  word : String
  entity_group : String
  score : ℚ
  start_char : ℕ
  end_char : ℕ
deriving DecidableEq, Repr

/-- The `extract_types` filter applied in both passes: keep a label when no
filter list was given or the label is listed. -/
def keeps_label (extract_types : Option (List String)) (label : String) : Bool :=
  match extract_types with
  | none => true
  | some ts => label ∈ ts

/-- `extract_entities_enhanced` (lines 67-142).  External effects are
oracles: `nlp` is the result of `get_nlp_model()` + `nlp(text)` for this
request (an `OSError`/exception message, or the document's entities);
`bert` models `get_bert_ner_model()` (absent on low tiers or failed load)
whose application may itself fail (inner `try`, which keeps the spaCy
concepts); `specialized`, `kw` and `tp` model
`extract_specialized_entities`, `extract_keywords` and `extract_topics`.
The whole body sits in a `try` whose handler returns the empty response,
so the function is total — the Lean translation returns a plain
`ExtractConceptsResponse`, never an error. -/
def extract_entities_enhanced
    (nlp : Except String (List SpacyEnt))
    (bert : Option (Except String (List BertEnt)))
    (specialized : String → Option (List String) → List Concept)
    (kw : String → List String)
    (tp : String → List Concept → List String)
    (text : String) (extract_types : Option (List String)) :
    ExtractConceptsResponse :=
  match nlp with
  | .error _ => ⟨[], [], []⟩
  | .ok ents =>
    let base := ents.filterMap (fun e =>
      let label := map_spacy_label e.label
      if keeps_label extract_types label then
        some ⟨e.text, label, 4/5, e.start_char, e.end_char⟩
      else none)
    let withBert :=
      match bert with
      | none => base
      | some (.error _) => base
      | some (.ok bents) =>
        bents.foldl (fun acc e =>
          let label := map_bert_label e.entity_group
          if !keeps_label extract_types label then acc
          else if acc.any (fun c => c.text = e.word && c.label = label) then acc
          else acc ++ [⟨e.word, label, e.score, e.start_char, e.end_char⟩]) base
    let concepts := withBert ++ specialized text extract_types
    ⟨concepts, kw text, tp text concepts⟩

/-! ## Summarizer (`services/summarizer.py`) -/

/-- The `SummarizeResponse` schema of `api/schemas.py`; its `sentiment`
field is documented there as ranging from -1 to 1. -/
structure SummarizeResponse where
  summary : String
  key_points : List String
  complexity : String
  sentiment : ℚ
  word_count : ℕ
deriving DecidableEq, Repr

/-- `positive_words` (line 84). -/
def positive_words : List String :=
  ["good", "great", "excellent", "positive", "beneficial", "helpful"]

/-- `negative_words` (line 85). -/
def negative_words : List String :=
  ["bad", "poor", "negative", "problem", "issue", "difficult"]

/-- `sum(1 for word in ws if word in text_lower)`. -/
def count_words_in (ws : List String) (text_lower : String) : ℕ :=
  (ws.filter (fun w => str_contains text_lower w)).length

/-- The sentiment heuristic of `parse_summary_response` (lines 83-95),
i.e. the fourth component of the tuple it returns. -/
def parse_summary_sentiment (response : String) : ℚ :=
  if count_words_in negative_words (str_to_lower response) <
      count_words_in positive_words (str_to_lower response) then
    min (1/2) ((count_words_in positive_words (str_to_lower response) : ℚ) * (1/10))
  else if count_words_in positive_words (str_to_lower response) <
      count_words_in negative_words (str_to_lower response) then
    max (-(1/2)) (-((count_words_in negative_words (str_to_lower response) : ℚ) * (1/10)))
  else 0

/-- Python `str.split()`: split on whitespace runs, dropping empties. -/
def split_words (s : String) : List String :=
  (s.split (fun c => c.isWhitespace)).filter (fun w => w ≠ "")

/-- The total-failure fallback of `summarize_content` (lines 44-50):
truncated input as summary, no key points, `intermediate` complexity, and
sentiment exactly 0. -/
def summarize_content_fallback (content : String) (max_length : ℕ) :
    SummarizeResponse :=
  ⟨if max_length < content.length
    then String.mk (content.toList.take max_length) ++ "..."
    else content,
   [], "intermediate", 0, (split_words content).length⟩

/-! ## Concrete oracles used to evaluate the code at specific inputs -/

/-- Encode oracle for the device-fallback scenario: encoding on the
accelerator raises a CUDA-class error, encoding on the CPU succeeds. -/
def cuda_failing_encode (d : String) : Except String (List ℚ) :=
  if d = "cuda" then .error "CUDA out of memory" else .ok [1]

/-- Parse oracle modelling `json.loads` for a response in which no
candidate is parseable. -/
def no_json_parse : String → Option DailySummary := fun _ => none

end CurioAi

namespace CurioAi

/-! ## Theorems -/

section TierTheorems

/-- C3: with no tier override set, `get_recommended_tier` is monotone in
the snapshot's total memory: `mem_a < mem_b` never resolves `mem_b` to a
strictly lower tier in the ordering LOW_END < MID_RANGE < HIGH_END <
PREMIUM. -/
theorem tier_monotone (mem_a mem_b : ℚ) (h : mem_a < mem_b) :
    (get_recommended_tier mem_a).rank ≤ (get_recommended_tier mem_b).rank := by
  unfold get_recommended_tier
  simp only [ MODEL_TIERS]
  split_ifs <;> simp [Tier.rank] <;> linarith

/-- Witness for C3 at the concrete snapshot pair (8, 16). -/
theorem tier_monotone_witness :
    (8 : ℚ) < 16 ∧
      (get_recommended_tier 8).rank ≤ (get_recommended_tier 16).rank :=
  ⟨by decide, tier_monotone 8 16 (by decide)⟩

/-- C4 counterexample: `HIGH_END` and `PREMIUM` share the threshold
`min_ram_gb = 16`, so the strictly-increasing ordering the claim states
fails; moreover at total memory 2 GB no tier's threshold is satisfied,
yet resolution returns `LOW_END`. -/
theorem tier_ordering_counterexample :
    ¬ ((MODEL_TIERS .HIGH_END).min_ram_gb <
        (MODEL_TIERS .PREMIUM).min_ram_gb) ∧
    get_recommended_tier 2 = .LOW_END ∧
    ¬ ((MODEL_TIERS .LOW_END).min_ram_gb ≤ 2) := by
  decide

/-- C4 (amended): the tiers' `min_ram_gb` thresholds are non-decreasing in
the four-level ordering (with `HIGH_END` and `PREMIUM` sharing 16), and
`get_recommended_tier` returns the highest tier whose threshold the
detected total memory satisfies, defaulting to `LOW_END` when no
threshold is satisfied. -/
theorem tier_ordering_amended :
    (∀ t u : Tier, t.rank ≤ u.rank →
      (MODEL_TIERS t).min_ram_gb ≤ (MODEL_TIERS u).min_ram_gb) ∧
    (∀ mem : ℚ, ∀ t : Tier, (MODEL_TIERS t).min_ram_gb ≤ mem →
      t.rank ≤ (get_recommended_tier mem).rank) ∧
    (∀ mem : ℚ,
      (MODEL_TIERS (get_recommended_tier mem)).min_ram_gb ≤ mem ∨
      ((∀ t : Tier, ¬ (MODEL_TIERS t).min_ram_gb ≤ mem) ∧
        get_recommended_tier mem = .LOW_END)) := by
  refine ⟨?_, ?_, ?_⟩
  · intro t u h
    cases t <;> cases u <;> simp_all [Tier.rank, MODEL_TIERS] <;> norm_num
  · intro mem t h
    unfold get_recommended_tier
    simp only [ MODEL_TIERS] at h ⊢
    cases t <;> simp_all [Tier.rank, MODEL_TIERS]
    all_goals split_ifs <;> simp [Tier.rank]
  · intro mem
    unfold get_recommended_tier
    simp only [ MODEL_TIERS]
    split_ifs with h1 h2
    · exact Or.inl h1
    · exact Or.inl h2
    · by_cases h4 : (4 : ℚ) ≤ mem
      · exact Or.inl h4
      · exact Or.inr ⟨fun t => by cases t <;> simp [ MODEL_TIERS] <;> linarith,
          rfl⟩

/-- Witness for C4 (amended) at concrete tiers and the snapshot 9. -/
theorem tier_ordering_amended_witness :
    (MODEL_TIERS .MID_RANGE).min_ram_gb ≤ (MODEL_TIERS .PREMIUM).min_ram_gb ∧
    Tier.rank .MID_RANGE ≤ (get_recommended_tier 9).rank :=
  ⟨tier_ordering_amended.1 .MID_RANGE .PREMIUM (by decide),
   tier_ordering_amended.2.1 9 .MID_RANGE (by decide)⟩

end TierTheorems

section RegistryTheorems

/-- A cache hit returns the cached instance and leaves the state as it
was (`embedding_service_v2.py` lines 55-57). -/
theorem get_embedding_model_cached (name : String) (s : EmbCache) (h : ℕ)
    (hc : s.cache.lookup name = some h) :
    get_embedding_model name s = (h, s) := by
  unfold get_embedding_model
  rw [hc]

/-- Once the model is cached, any further run of callers performs no load
and hands every caller the cached instance. -/
theorem runCalls_cached (name : String) (h : ℕ) :
    ∀ (n : ℕ) (s : EmbCache), s.cache.lookup name = some h →
      runCalls name n s = (s, List.replicate n h) := by
  intro n
  induction n with
  | zero => intro s _; rfl
  | succ k ih =>
    intro s hc
    simp [runCalls, get_embedding_model_cached name s h hc, ih s hc,
      List.replicate]

/-- C2: single-flight model loading.  `get_embedding_model` contains no
suspension point and every caller reaches it synchronously from an async
endpoint, so on the service's single event loop the N concurrent callers
execute it atomically in arrival order, which `runCalls` models.  For an
uncached key, N ≥ 1 callers cause exactly one `SentenceTransformer`
instantiation, all N receive the same instance, and the cache maps the
key to that single instance. -/
theorem single_flight_per_key (name : String) (s : EmbCache) (n : ℕ)
    (huncached : s.cache.lookup name = none) (hpos : 1 ≤ n) :
    (runCalls name n s).1.loadCount = s.loadCount + 1 ∧
    (runCalls name n s).2 = List.replicate n s.nextId ∧
    (runCalls name n s).1.cache.lookup name = some s.nextId := by
  obtain ⟨k, hk⟩ := Nat.exists_eq_add_of_le hpos
  subst hk
  have hstep : get_embedding_model name s =
      (s.nextId,
        ⟨(name, s.nextId) :: s.cache, s.loadCount + 1, s.nextId + 1⟩) := by
    unfold get_embedding_model
    rw [huncached]
  have hlook :
      (⟨(name, s.nextId) :: s.cache, s.loadCount + 1, s.nextId + 1⟩ :
        EmbCache).cache.lookup name = some s.nextId := by
    simp [List.lookup]
  have hone : (1 : ℕ) + k = k + 1 := by omega
  rw [hone]
  simp [runCalls, hstep, runCalls_cached name s.nextId k _ hlook,
    List.replicate, hlook]

/-- Witness for C2: three callers for an uncached model name, starting
from the empty cache. -/
theorem single_flight_per_key_witness :
    (runCalls "all-MiniLM-L6-v2" 3 ⟨[], 0, 0⟩).1.loadCount = 0 + 1 ∧
    (runCalls "all-MiniLM-L6-v2" 3 ⟨[], 0, 0⟩).2 = List.replicate 3 0 ∧
    (runCalls "all-MiniLM-L6-v2" 3
        ⟨[], 0, 0⟩).1.cache.lookup "all-MiniLM-L6-v2" = some 0 :=
  single_flight_per_key "all-MiniLM-L6-v2" ⟨[], 0, 0⟩ 3 rfl (by decide)

/-- C1: device fallback is retried once and succeeds, but it is not
sticky.  With the module-global `_device` unresolved, CUDA available and
probing fine, and the model's encode raising a CUDA-class error on the
accelerator: the first invocation succeeds via the CPU retry, yet —
because the handler's `_device = 'cpu'` binds a function-local name, the
module global keeping `'cuda'` — the second independent invocation
attempts the accelerator again, contradicting the claimed process-wide
stickiness. -/
theorem device_fallback_not_sticky :
    (encode_with_fallback cuda_failing_encode true true ⟨none⟩).result
        = .ok [1] ∧
    (encode_with_fallback cuda_failing_encode true true ⟨none⟩).devices_tried
        = ["cuda", "cpu"] ∧
    (encode_with_fallback cuda_failing_encode true true ⟨none⟩).state
        = ⟨some "cuda"⟩ ∧
    "cuda" ∈ (encode_with_fallback cuda_failing_encode true true
        (encode_with_fallback cuda_failing_encode true true
          ⟨none⟩).state).devices_tried := by
  refine ⟨rfl, rfl, rfl, ?_⟩
  decide

end RegistryTheorems

section CapabilityTheorems

/-- C5: whenever the resolved tier is neither `HIGH_END` nor `PREMIUM`,
`classify_activity_ml` returns the fixed undetermined result —
`activity_type = "other"`, confidence exactly 1/2, a non-empty reason —
and performs no model-load attempt. -/
theorem classifier_tier_gate (tier : Tier)
    (load_result : Option (String → List String → Option ZeroShotOutput))
    (app_name window_title : String) (url content_snippet : Option String)
    (h1 : tier ≠ .HIGH_END) (h2 : tier ≠ .PREMIUM) :
    classify_activity_ml tier load_result app_name window_title url
        content_snippet
      = (⟨"other", 1/2, [],
          "Tier does not support ML classification, use rule-based"⟩, 0) ∧
    "Tier does not support ML classification, use rule-based" ≠ "" := by
  refine ⟨?_, by decide⟩
  unfold classify_activity_ml should_use_ml_classifier
  cases tier <;> simp_all

/-- Witness for C5 at tier `LOW_END` and a concrete request. -/
theorem classifier_tier_gate_witness :
    classify_activity_ml .LOW_END none "Code" "main.py - VS Code" none none
      = (⟨"other", 1/2, [],
          "Tier does not support ML classification, use rule-based"⟩, 0) ∧
    "Tier does not support ML classification, use rule-based" ≠ "" :=
  classifier_tier_gate .LOW_END none "Code" "main.py - VS Code" none none
    (by decide) (by decide)

/-- C6: `batch_generate_embeddings` returns exactly one response per input
text, in input order (the i-th response embeds the i-th text), each with
`dimension` equal to its embedding's length, and performs exactly one
batched encode invocation. -/
theorem batch_order_preserved (m : SentenceTransformerModel)
    (texts : List String) :
    (batch_generate_embeddings m texts).1.length = texts.length ∧
    (∀ i : ℕ, (batch_generate_embeddings m texts).1[i]? =
      (texts[i]?).map
        (fun t => ⟨m.enc t, toString m.dim, (m.enc t).length⟩)) ∧
    (batch_generate_embeddings m texts).2 = 1 := by
  refine ⟨by simp [batch_generate_embeddings], ?_, rfl⟩
  intro i
  simp only [batch_generate_embeddings, List.getElem?_map]
  cases texts[i]? <;> rfl

/-- C7: in the v2 single-embedding response and in every batch-embedding
response, the `model` field carries the model's declared dimensionality
(not its name), while the `dimension` field carries the embedding
vector's length. -/
theorem model_field_carries_dimension (m : SentenceTransformerModel)
    (text : String) (texts : List String) :
    (generate_embedding_v2 m text).model = toString m.dim ∧
    (generate_embedding_v2 m text).dimension =
      (generate_embedding_v2 m text).embedding.length ∧
    (∀ r ∈ (batch_generate_embeddings m texts).1,
      r.model = toString m.dim ∧ r.dimension = r.embedding.length) := by
  refine ⟨rfl, rfl, ?_⟩
  intro r hr
  simp [batch_generate_embeddings] at hr
  obtain ⟨e, -, rfl⟩ := hr
  exact ⟨rfl, rfl⟩

/-- Witness for C7 at a concrete model and batch. -/
theorem model_field_carries_dimension_witness :
    (generate_embedding_v2 ⟨"all-MiniLM-L6-v2", 384, fun _ => [1, 2]⟩
        "hello").model = toString (384 : ℕ) ∧
    (generate_embedding_v2 ⟨"all-MiniLM-L6-v2", 384, fun _ => [1, 2]⟩
        "hello").dimension =
      (generate_embedding_v2 ⟨"all-MiniLM-L6-v2", 384, fun _ => [1, 2]⟩
        "hello").embedding.length ∧
    (⟨[1, 2], toString (384 : ℕ), 2⟩ : EmbeddingResponse).model
        = toString (384 : ℕ) ∧
    (⟨[1, 2], toString (384 : ℕ), 2⟩ : EmbeddingResponse).dimension =
      ([1, 2] : List ℚ).length := by
  have h := model_field_carries_dimension
    ⟨"all-MiniLM-L6-v2", 384, fun _ => [1, 2]⟩ "hello" ["a"]
  have hm := h.2.2 ⟨[1, 2], toString (384 : ℕ), 2⟩
    (by simp [batch_generate_embeddings])
  exact ⟨h.1, h.2.1, hm.1, hm.2⟩

end CapabilityTheorems

section InsightTheorems

/-- C8 counterexample: for an LLM response with no JSON object at all,
`generate_daily_summary`'s fallback does not satisfy the claim — the
`summary` is the retrieval-stage answer rather than the LLM response, and
`activities`, `concepts_learned` and `insights` are not empty
(`insights` always holds the retrieval answer, the others echo the
request data). -/
theorem daily_summary_counterexample :
    ¬ ((generate_daily_summary
          ⟨"2024-01-01", ["coding session"], [("coding", 30)], ["python"]⟩
          "A productive day" "Sorry, I cannot produce JSON."
          no_json_parse).summary = "Sorry, I cannot produce JSON." ∧
       (generate_daily_summary
          ⟨"2024-01-01", ["coding session"], [("coding", 30)], ["python"]⟩
          "A productive day" "Sorry, I cannot produce JSON."
          no_json_parse).activities = [] ∧
       (generate_daily_summary
          ⟨"2024-01-01", ["coding session"], [("coding", 30)], ["python"]⟩
          "A productive day" "Sorry, I cannot produce JSON."
          no_json_parse).concepts_learned = [] ∧
       (generate_daily_summary
          ⟨"2024-01-01", ["coding session"], [("coding", 30)], ["python"]⟩
          "A productive day" "Sorry, I cannot produce JSON."
          no_json_parse).insights = []) := by
  decide

/-- C8 (amended): for every LLM response in which no parseable JSON
candidate is found, `generate_daily_summary` does not fail; it returns
the fallback whose `summary` is the retrieval-stage answer, whose
`activities`, `time_spent` and `concepts_learned` echo the request's
activities data (empty collections when the request carried none), and
whose `insights` is the one-element list holding the retrieval-stage
answer. -/
theorem daily_summary_parse_fallback (data : ActivitiesData)
    (rag_response llm_response : String)
    (json_parse : String → Option DailySummary)
    (h : ∀ cand, extract_json_candidate llm_response.toList = some cand →
      json_parse (String.mk cand) = none) :
    generate_daily_summary data rag_response llm_response json_parse =
      ⟨rag_response, data.activities, data.time_spent, data.concepts,
        [rag_response]⟩ := by
  unfold generate_daily_summary daily_summary_fallback
  cases hc : extract_json_candidate llm_response.toList with
  | none => rfl
  | some cand => simp [h cand hc]

/-- Witness for C8 (amended) at a concrete request whose LLM response
parses to nothing. -/
theorem daily_summary_parse_fallback_witness :
    generate_daily_summary ⟨"2024-01-01", [], [], []⟩ "rag answer"
        "plain text" no_json_parse
      = ⟨"rag answer", [], [], [], ["rag answer"]⟩ :=
  daily_summary_parse_fallback ⟨"2024-01-01", [], [], []⟩ "rag answer"
    "plain text" no_json_parse (fun _ _ => rfl)

/-- C9: when the base spaCy model is unavailable (the `OSError` that
`get_nlp_model` re-raises, or any other failure of the base pass),
`extract_entities_enhanced` propagates nothing: it returns an
`ExtractConceptsResponse` with empty `concepts`, `keywords` and `topics`,
whatever the remaining oracles, text and filters are — the same value the
interface yields for text with no entities at all. -/
theorem extractor_empty_on_failure (e : String)
    (bert : Option (Except String (List BertEnt)))
    (specialized : String → Option (List String) → List Concept)
    (kw : String → List String) (tp : String → List Concept → List String)
    (text : String) (extract_types : Option (List String)) :
    extract_entities_enhanced (.error e) bert specialized kw tp text
        extract_types = ⟨[], [], []⟩ :=
  rfl

/-- C10: `parse_summary_response`'s sentiment is always within
[-1/2, 1/2] (although the response schema documents the field as ranging
from -1 to 1), it is exactly 0 when the positive and negative word counts
tie, and the summarizer's total-failure fallback always carries
sentiment 0. -/
theorem sentiment_bounded (response content : String) (max_length : ℕ) :
    -(1/2) ≤ parse_summary_sentiment response ∧
    parse_summary_sentiment response ≤ 1/2 ∧
    (count_words_in positive_words (str_to_lower response) =
        count_words_in negative_words (str_to_lower response) →
      parse_summary_sentiment response = 0) ∧
    (summarize_content_fallback content max_length).sentiment = 0 := by
  have hp : (0 : ℚ) ≤
      (count_words_in positive_words (str_to_lower response) : ℚ) :=
    Nat.cast_nonneg _
  have hn : (0 : ℚ) ≤
      (count_words_in negative_words (str_to_lower response) : ℚ) :=
    Nat.cast_nonneg _
  refine ⟨?_, ?_, ?_, rfl⟩
  · unfold parse_summary_sentiment
    split_ifs
    · exact le_min (by norm_num)
        (le_trans (by norm_num) (mul_nonneg hp (by norm_num)))
    · exact le_max_left _ _
    · norm_num
  · unfold parse_summary_sentiment
    split_ifs
    · exact min_le_left _ _
    · refine max_le (by norm_num) (by linarith)
    · norm_num
  · intro h
    unfold parse_summary_sentiment
    split_ifs with h1 h2
    · exact absurd h (by omega)
    · exact absurd h (by omega)
    · rfl

/-- Witness for C10 at a response whose word counts tie (zero each) and a
concrete fallback input. -/
theorem sentiment_bounded_witness :
    parse_summary_sentiment "hello world" = 0 ∧
    (summarize_content_fallback "abc" 5).sentiment = 0 :=
  ⟨(sentiment_bounded "hello world" "abc" 5).2.2.1 (by decide),
   (sentiment_bounded "hello world" "abc" 5).2.2.2⟩

end InsightTheorems

end CurioAi
